import Mathlib

/-!
Verification of the deterministic layout and content-fitting core of the
ai_ppt_framework repository, as a shallow embedding in Lean 4.

Sources embedded:
- `src/visual/layout_system.py` (`LayoutEngine`, `BackgroundManager`)
- `src/presentation/factory.py` (`PresentationFactory._parse_analysis_result`)

Modelling conventions:
- Python `str` values are embedded as `List Char`; the helpers below
  (`pyStrip`, `pyReplace`, `splitOnNl`, `startsWithList`, `containsSub`,
  `lastIdxOf`, `pyTake`) mirror the exact semantics of `str.strip`,
  `str.replace`, `str.split("\n")`, `str.startswith`, the `in` operator,
  `str.rfind`, and slicing `s[:n]` (including negative `n`).  Python's
  `str.strip` removes a slightly larger whitespace set than
  `Char.isWhitespace`; all inputs considered here use only ASCII space,
  tab, CR and LF, on which the two agree.
- Python `int` arithmetic is embedded over `ℕ`/`ℤ`; positions measured
  in inches are embedded over `ℚ`, with Python float literals such as
  `13.33` read as exact decimals (they are never computed with).
- Python `float` arithmetic is embedded exactly as IEEE-754 binary64:
  `Frac` is an unnormalized exact fraction (integer numerator, natural
  denominator), `roundDouble` rounds a fraction to the nearest binary64
  value (53-bit significand, round-to-nearest, ties-to-even; the
  magnitudes occurring here are far from binary64 overflow and
  subnormals, which are therefore not modelled), and each source float
  operation — the literals `0.7`, `0.4`, `0.8`, int-to-float conversion,
  `+`, `*`, `/` — is one correct rounding of the exact result, per
  IEEE-754/CPython semantics.  Comparisons between these values (and
  between a Python int and a float) are exact.  The model reproduces the
  reference values of CPython, e.g. `90 * 0.7 = 8866461766385663/2^47`
  (`62.99999999999999`), `int(1 + 90*0.7) = 63`, and
  `int(9 / (9/7)) = 6`.
-/

namespace AiPpt

/-! ### Python string primitives -/

/-- Embedding of Python `str.startswith`: `pat` is a prefix of `s`. -/
def startsWithList (pat s : List Char) : Bool :=
  match pat, s with
  | [], _ => true
  | _ :: _, [] => false
  | p :: ps, c :: cs => p = c && startsWithList ps cs

/-- Embedding of the Python `in` operator on strings: `pat` occurs as a
contiguous substring of `s`. -/
def containsSub (pat s : List Char) : Bool :=
  match s with
  | [] => startsWithList pat []
  | _ :: cs => startsWithList pat s || containsSub pat cs

/-- Fuel-driven worker for `pyReplace` (structural in the fuel so that the
kernel can evaluate it; fuel `s.length` always suffices because each step
consumes at least one character of `s`). -/
def replaceFuel (pat rep : List Char) : ℕ → List Char → List Char
  | _, [] => []
  | 0, s => s
  | fuel + 1, c :: cs =>
    if pat ≠ [] && startsWithList pat (c :: cs) then
      rep ++ replaceFuel pat rep fuel ((c :: cs).drop pat.length)
    else
      c :: replaceFuel pat rep fuel cs

/-- Embedding of Python `s.replace(pat, rep)` for non-empty `pat`:
replaces every non-overlapping occurrence, scanning left to right. -/
def pyReplace (s pat rep : List Char) : List Char :=
  replaceFuel pat rep s.length s

/-- Embedding of Python `str.strip()`: remove leading and trailing
whitespace. -/
def pyStrip (s : List Char) : List Char :=
  ((s.dropWhile Char.isWhitespace).reverse.dropWhile Char.isWhitespace).reverse

/-- Embedding of Python `s.split("\n")`. -/
def splitOnNl : List Char → List (List Char)
  | [] => [[]]
  | c :: cs =>
    match splitOnNl cs with
    | [] => [[c]]
    | l :: ls => if c = '\n' then [] :: l :: ls else (c :: l) :: ls

/-- Embedding of Python `s.rfind(c)` for a single character: the largest
index at which `c` occurs, or `-1` if it does not occur. -/
def lastIdxOf (c : Char) : List Char → ℤ
  | [] => -1
  | x :: cs =>
    let r := lastIdxOf c cs
    if r ≥ 0 then r + 1 else if x = c then 0 else -1

/-- Embedding of Python slicing `s[:n]`, including negative `n`
(count from the end, clamped at the start). -/
def pyTake (n : ℤ) (s : List Char) : List Char :=
  if 0 ≤ n then s.take n.toNat else s.take ((s.length : ℤ) + n).toNat

/-- Embedding of Python `str.lower()` (ASCII inputs). -/
def toLowerList (s : List Char) : List Char := s.map Char.toLower

/-! ### Exact model of IEEE-754 binary64 (Python `float`) arithmetic

`Frac` is an exact, unnormalized fraction; all its operations are plain
integer arithmetic, so the kernel can evaluate them.  Every value the
source actually computes with keeps a positive denominator. -/

/-- An exact fraction `num / den` (unnormalized). -/
structure Frac where
  num : ℤ
  den : ℕ
deriving DecidableEq

/-- Exact product of fractions. -/
def fmul (a b : Frac) : Frac := ⟨a.num * b.num, a.den * b.den⟩

/-- Exact sum of fractions. -/
def fadd (a b : Frac) : Frac :=
  ⟨a.num * b.den + b.num * a.den, a.den * b.den⟩

/-- Exact reciprocal of a fraction (sign moves to the numerator). -/
def finv (a : Frac) : Frac :=
  if a.num < 0 then ⟨-(a.den : ℤ), a.num.natAbs⟩ else ⟨(a.den : ℤ), a.num.natAbs⟩

/-- Exact quotient of fractions. -/
def fdivF (a b : Frac) : Frac := fmul a (finv b)

/-- Exact strict comparison `a < b` (valid for positive denominators). -/
def flt (a b : Frac) : Prop := a.num * (b.den : ℤ) < b.num * (a.den : ℤ)

instance (a b : Frac) : Decidable (flt a b) :=
  inferInstanceAs (Decidable (_ < _))

/-- Exact comparison `a ≤ b` (valid for positive denominators). -/
def fle (a b : Frac) : Prop := a.num * (b.den : ℤ) ≤ b.num * (a.den : ℤ)

instance (a b : Frac) : Decidable (fle a b) :=
  inferInstanceAs (Decidable (_ ≤ _))

/-- Exact equality of the represented rationals. -/
def frEq (a b : Frac) : Prop := a.num * (b.den : ℤ) = b.num * (a.den : ℤ)

instance (a b : Frac) : Decidable (frEq a b) :=
  inferInstanceAs (Decidable (_ = _))

/-- Floor of a fraction (valid for positive denominators:
Euclidean division by a positive integer is floor division). -/
def ffloor (a : Frac) : ℤ := Int.ediv a.num (a.den : ℤ)

/-- Truncation of a fraction toward zero — the semantics of Python's
`int(...)` on a float. -/
def fint (a : Frac) : ℤ := Int.tdiv a.num (a.den : ℤ)

/-- Fuel-driven base-2 logarithm (structural, so the kernel can evaluate
it; fuel `n` suffices for input `n`). -/
def log2fuel : ℕ → ℕ → ℕ
  | 0, _ => 0
  | fuel + 1, n => if 2 ≤ n then log2fuel fuel (n / 2) + 1 else 0

/-- Floor of the base-2 logarithm (`natLog2 n = ⌊log2 n⌋` for `n ≥ 1`). -/
def natLog2 (n : ℕ) : ℕ := log2fuel n n

/-- The unit in the last place for binary exponent `e`: `2 ^ (e - 52)`
as an exact fraction. -/
def pow2ulp (e : ℤ) : Frac :=
  if 0 ≤ e - 52 then ⟨2 ^ (e - 52).toNat, 1⟩ else ⟨1, 2 ^ (52 - e).toNat⟩

/-- Binary exponent of a positive fraction: the `e` with
`2 ^ e ≤ x < 2 ^ (e + 1)`. -/
def fexp (x : Frac) : ℤ :=
  if (x.den : ℤ) ≤ x.num then (natLog2 (ffloor x).toNat : ℤ)
  else
    let k : ℕ := natLog2 (ffloor (finv x)).toNat
    if fle ⟨1, 1⟩ (fmul x ⟨2 ^ k, 1⟩) then -(k : ℤ) else -((k : ℤ) + 1)

/-- Round a positive fraction to the nearest binary64 value: scale by
the ulp, split into integer part and remainder, and round to nearest
with ties to even. -/
def roundPos (x : Frac) : Frac :=
  let ulp := pow2ulp (fexp x)
  let m := fdivF x ulp
  let n := ffloor m
  let t : ℤ := 2 * (m.num - n * (m.den : ℤ))
  let n2 : ℤ :=
    if (m.den : ℤ) < t then n + 1
    else if t < (m.den : ℤ) then n
    else if n % 2 = 0 then n else n + 1
  fmul ⟨n2, 1⟩ ulp

/-- Round an exact fraction to the nearest binary64 value (the result of
one correctly rounded IEEE-754 operation producing that exact value). -/
def roundDouble (x : Frac) : Frac :=
  if x.num = 0 then ⟨0, 1⟩
  else if x.num < 0 then
    let r := roundPos ⟨-x.num, x.den⟩
    ⟨-r.num, r.den⟩
  else roundPos x

/-- Conversion of a Python int to a float (exact below `2 ^ 53`, rounded
above). -/
def floatOfNat (n : ℕ) : Frac := roundDouble ⟨(n : ℤ), 1⟩

/-- The double written `0.7` in the source
(`3152519739159347 / 2 ^ 52 = 0.6999999999999999555…`). -/
def float07 : Frac := roundDouble ⟨7, 10⟩

/-- The double written `0.4` in the source. -/
def float04 : Frac := roundDouble ⟨2, 5⟩

/-- The double written `0.8` in the source. -/
def float08 : Frac := roundDouble ⟨4, 5⟩

/-- One Python float multiplication (correctly rounded). -/
def pyMul (a b : Frac) : Frac := roundDouble (fmul a b)

/-- One Python float addition (correctly rounded). -/
def pyAdd (a b : Frac) : Frac := roundDouble (fadd a b)

/-- One Python float division (correctly rounded). -/
def pyDiv (a b : Frac) : Frac := roundDouble (fdivF a b)

/-! ### Data model of `src/visual/layout_system.py` -/

/-- Standard slide dimensions, from the module constants (inches). -/
def SLIDE_WIDTH : ℚ := 13.33

def SLIDE_HEIGHT : ℚ := 7.5

def SLIDE_WIDTH_PX : ℕ := 1920

def SLIDE_HEIGHT_PX : ℕ := 1080

def MARGIN_TOP : ℚ := 0.5

def MARGIN_BOTTOM : ℚ := 0.5

def MARGIN_LEFT : ℚ := 0.5

def MARGIN_RIGHT : ℚ := 0.5

/-- Embedding of the `LayoutType` enum (all seven members). -/
inductive LayoutType where
  | titleSlide
  | titleContent
  | twoColumn
  | imageText
  | contentOnly
  | diagramFocus
  | fullImage
deriving DecidableEq

/-- Embedding of the `.value` string of each `LayoutType` member. -/
def LayoutType.value : LayoutType → String
  | .titleSlide => "title_slide"
  | .titleContent => "title_content"
  | .twoColumn => "two_column"
  | .imageText => "image_text"
  | .contentOnly => "content_only"
  | .diagramFocus => "diagram_focus"
  | .fullImage => "full_image"

/-- Embedding of the `AlignmentType` enum. -/
inductive AlignmentType where
  | left
  | center
  | right
  | justify
  | top
  | middle
  | bottom
deriving DecidableEq

/-- Embedding of the `Position` dataclass (inches from the top-left corner,
plus layering order). -/
structure Position where
  x : ℚ
  y : ℚ
  width : ℚ
  height : ℚ
  z_index : ℤ
deriving DecidableEq

/-- Embedding of the `LayoutRegion` dataclass.  `max_text_length` and the
font sizes are Python ints which are non-negative in every template, so
they are embedded over `ℕ`. -/
structure LayoutRegion where
  name : String
  position : Position
  alignment : AlignmentType
  maxTextLength : Option ℕ
  fontSizeRange : ℕ × ℕ
deriving DecidableEq

/-- Regions of the Title Slide layout, from `_initialize` + `_layouts`
(the table built in the `LayoutEngine` constructor). -/
def title_slide_regions : List LayoutRegion :=
  [ { name := "title",
      position := { x := MARGIN_LEFT, y := 2.0,
                    width := SLIDE_WIDTH - MARGIN_LEFT - MARGIN_RIGHT,
                    height := 1.5, z_index := 10 },
      alignment := .center, maxTextLength := none, fontSizeRange := (36, 48) },
    { name := "subtitle",
      position := { x := MARGIN_LEFT, y := 4.0,
                    width := SLIDE_WIDTH - MARGIN_LEFT - MARGIN_RIGHT,
                    height := 1.0, z_index := 10 },
      alignment := .center, maxTextLength := none, fontSizeRange := (18, 24) } ]

/-- Regions of the Title + Content layout. -/
def title_content_regions : List LayoutRegion :=
  [ { name := "title",
      position := { x := MARGIN_LEFT, y := MARGIN_TOP,
                    width := SLIDE_WIDTH - MARGIN_LEFT - MARGIN_RIGHT,
                    height := 1.0, z_index := 10 },
      alignment := .left, maxTextLength := none, fontSizeRange := (24, 32) },
    { name := "content",
      position := { x := MARGIN_LEFT, y := MARGIN_TOP + 1.2,
                    width := SLIDE_WIDTH - MARGIN_LEFT - MARGIN_RIGHT,
                    height := SLIDE_HEIGHT - MARGIN_TOP - MARGIN_BOTTOM - 1.2,
                    z_index := 5 },
      alignment := .left, maxTextLength := some 500, fontSizeRange := (14, 18) } ]

/-- Regions of the Two Column layout. -/
def two_column_regions : List LayoutRegion :=
  [ { name := "title",
      position := { x := MARGIN_LEFT, y := MARGIN_TOP,
                    width := SLIDE_WIDTH - MARGIN_LEFT - MARGIN_RIGHT,
                    height := 1.0, z_index := 10 },
      alignment := .left, maxTextLength := none, fontSizeRange := (24, 32) },
    { name := "left_content",
      position := { x := MARGIN_LEFT, y := MARGIN_TOP + 1.2,
                    width := (SLIDE_WIDTH - MARGIN_LEFT - MARGIN_RIGHT - 0.2) / 2,
                    height := SLIDE_HEIGHT - MARGIN_TOP - MARGIN_BOTTOM - 1.2,
                    z_index := 5 },
      alignment := .left, maxTextLength := some 250, fontSizeRange := (12, 16) },
    { name := "right_content",
      position := { x := MARGIN_LEFT + (SLIDE_WIDTH - MARGIN_LEFT - MARGIN_RIGHT) / 2 + 0.1,
                    y := MARGIN_TOP + 1.2,
                    width := (SLIDE_WIDTH - MARGIN_LEFT - MARGIN_RIGHT - 0.2) / 2,
                    height := SLIDE_HEIGHT - MARGIN_TOP - MARGIN_BOTTOM - 1.2,
                    z_index := 5 },
      alignment := .left, maxTextLength := some 250, fontSizeRange := (12, 16) } ]

/-- Regions of the Image + Text layout. -/
def image_text_regions : List LayoutRegion :=
  [ { name := "title",
      position := { x := MARGIN_LEFT, y := MARGIN_TOP,
                    width := SLIDE_WIDTH - MARGIN_LEFT - MARGIN_RIGHT,
                    height := 1.0, z_index := 10 },
      alignment := .left, maxTextLength := none, fontSizeRange := (24, 32) },
    { name := "image",
      position := { x := MARGIN_LEFT, y := MARGIN_TOP + 1.2,
                    width := (SLIDE_WIDTH - MARGIN_LEFT - MARGIN_RIGHT) * 0.6,
                    height := SLIDE_HEIGHT - MARGIN_TOP - MARGIN_BOTTOM - 1.2,
                    z_index := 3 },
      alignment := .center, maxTextLength := none, fontSizeRange := (12, 24) },
    { name := "text_content",
      position := { x := MARGIN_LEFT + (SLIDE_WIDTH - MARGIN_LEFT - MARGIN_RIGHT) * 0.65,
                    y := MARGIN_TOP + 1.2,
                    width := (SLIDE_WIDTH - MARGIN_LEFT - MARGIN_RIGHT) * 0.35 - 0.1,
                    height := SLIDE_HEIGHT - MARGIN_TOP - MARGIN_BOTTOM - 1.2,
                    z_index := 5 },
      alignment := .left, maxTextLength := some 300, fontSizeRange := (12, 16) } ]

/-- Regions of the Diagram Focus layout. -/
def diagram_focus_regions : List LayoutRegion :=
  [ { name := "title",
      position := { x := MARGIN_LEFT, y := MARGIN_TOP,
                    width := SLIDE_WIDTH - MARGIN_LEFT - MARGIN_RIGHT,
                    height := 0.8, z_index := 10 },
      alignment := .center, maxTextLength := none, fontSizeRange := (20, 28) },
    { name := "diagram",
      position := { x := MARGIN_LEFT + 1.0, y := MARGIN_TOP + 1.0,
                    width := SLIDE_WIDTH - MARGIN_LEFT - MARGIN_RIGHT - 2.0,
                    height := SLIDE_HEIGHT - MARGIN_TOP - MARGIN_BOTTOM - 2.0,
                    z_index := 3 },
      alignment := .center, maxTextLength := none, fontSizeRange := (12, 24) },
    { name := "caption",
      position := { x := MARGIN_LEFT, y := SLIDE_HEIGHT - MARGIN_BOTTOM - 0.6,
                    width := SLIDE_WIDTH - MARGIN_LEFT - MARGIN_RIGHT,
                    height := 0.5, z_index := 5 },
      alignment := .center, maxTextLength := some 100, fontSizeRange := (10, 14) } ]

/-- Embedding of the `self.layouts` dict: the table holds entries for
exactly five of the seven `LayoutType` members (`CONTENT_ONLY` and
`FULL_IMAGE` are never inserted), so lookup is a partial map. -/
def layouts : LayoutType → Option (List LayoutRegion)
  | .titleSlide => some title_slide_regions
  | .titleContent => some title_content_regions
  | .twoColumn => some two_column_regions
  | .imageText => some image_text_regions
  | .diagramFocus => some diagram_focus_regions
  | .contentOnly => none
  | .fullImage => none

/-- Embedding of `LayoutEngine.get_layout`:
`self.layouts.get(layout_type, self.layouts[LayoutType.TITLE_CONTENT])`. -/
def get_layout (layout_type : LayoutType) : List LayoutRegion :=
  (layouts layout_type).getD title_content_regions

/-- Embedding of `LayoutEngine.calculate_optimal_layout`. -/
def calculate_optimal_layout (content_type : String)
    (has_image : Bool) (has_diagram : Bool) : LayoutType :=
  if content_type = "title_slide" then .titleSlide
  else if has_diagram then .diagramFocus
  else if has_image then .imageText
  else if content_type = "features" ∨ content_type = "comparison" then .twoColumn
  else .titleContent

/-- Single-character constants used by `validate_text_length`. -/
def periodChar : Char := '.'

def spaceChar : Char := ' '

/-- The ellipsis marker `"..."` appended by `validate_text_length`. -/
def ellipsis : List Char := ['.', '.', '.']

/-- Embedding of `LayoutEngine.validate_text_length`.  The text is
`text`, the budget is `region.max_text_length`.  Following the source:
an absent budget or a text within budget is returned unchanged; otherwise
the text is cut to `text[:budget - 3]`, then the cut is moved back to the
last `'.'` if its index exceeds the float product `budget * 0.7`, else
to the last `' '` (plus `"..."`) if its index exceeds `budget * 0.8`,
else `"..."` is appended to the hard cut.  The comparison
`last_period > budget * 0.7` compares the int `last_period` exactly
against the correctly rounded double `float(budget) * 0.7` —
`flt threshold ⟨i, 1⟩` is exactly `i > threshold`. -/
def validate_text_length (text : List Char) (region : LayoutRegion) :
    List Char × Bool :=
  match region.maxTextLength with
  | none => (text, false)
  | some budget =>
    if text.length ≤ budget then (text, false)
    else
      let truncated := pyTake ((budget : ℤ) - 3) text
      let last_period := lastIdxOf periodChar truncated
      if flt (pyMul (floatOfNat budget) float07) ⟨last_period, 1⟩ then
        (truncated.take (last_period.toNat + 1), true)
      else
        let last_space := lastIdxOf spaceChar truncated
        if flt (pyMul (floatOfNat budget) float08) ⟨last_space, 1⟩ then
          (truncated.take last_space.toNat ++ ellipsis, true)
        else
          (truncated ++ ellipsis, true)

/-- The fixed priority-keyword list of `optimize_bullet_points`. -/
def important_keywords : List (List Char) :=
  ["key".data, "important".data, "critical".data, "main".data, "primary".data]

/-- Embedding of the per-bullet score in `optimize_bullet_points`:
`max(0, 100 - len(point))` plus `10` for each keyword of
`important_keywords` occurring in `point.lower()`. -/
def bullet_score (point : List Char) : ℤ :=
  let length_score : ℤ := max 0 (100 - (point.length : ℤ))
  let keyword_score : ℤ :=
    10 * (important_keywords.countP (fun k => containsSub k (toLowerList point)) : ℤ)
  length_score + keyword_score

/-- Ordering used to embed Python's
`scored_points.sort(key=lambda x: x[1], reverse=True)`: `a` may precede
`b` when `a`'s score is at least `b`'s. -/
def scoreRel (a b : List Char × ℤ) : Prop := b.2 ≤ a.2

instance : DecidableRel scoreRel := fun a b => inferInstanceAs (Decidable (b.2 ≤ a.2))

instance : IsTotal (List Char × ℤ) scoreRel := ⟨fun a b => le_total b.2 a.2⟩

instance : IsTrans (List Char × ℤ) scoreRel := ⟨fun _ _ _ h1 h2 => le_trans h2 h1⟩

/-- Embedding of `LayoutEngine.optimize_bullet_points`.  Python's
`list.sort` is a stable sort; a stable descending sort on the score is
uniquely determined by its input, and `List.insertionSort scoreRel` is
exactly such a stable sort (`orderedInsert` places the inserted, i.e.
originally earlier, element before every element of equal score). -/
def optimize_bullet_points (points : List (List Char)) (max_points : ℕ) :
    List (List Char) :=
  if points.length ≤ max_points then points
  else
    let scored_points := points.map (fun p => (p, bullet_score p))
    ((List.insertionSort scoreRel scored_points).take max_points).map Prod.fst

/-- Embedding of `LayoutEngine.calculate_font_size`.  The source computes
`int(min_size + (max_size - min_size) * 0.7)` resp. `* 0.4` in float
arithmetic: the int difference is converted to a double, multiplied by
the double `0.7` (one rounding), added to `min_size` (one rounding), and
truncated by `int(...)`.  The subtraction `max_size - min_size` is `ℕ`
truncated subtraction; it agrees with Python for `min_size ≤ max_size`
(every catalog range, and the scope of every claim about this
function). -/
def calculate_font_size (text : List Char) (region : LayoutRegion) : ℕ :=
  let min_size := region.fontSizeRange.1
  let max_size := region.fontSizeRange.2
  if text.length < 50 then max_size
  else if text.length < 150 then
    (fint (pyAdd (floatOfNat min_size)
      (pyMul (floatOfNat (max_size - min_size)) float07))).toNat
  else if text.length < 300 then
    (fint (pyAdd (floatOfNat min_size)
      (pyMul (floatOfNat (max_size - min_size)) float04))).toNat
  else min_size

/-! ### `BackgroundManager.prepare_background_image` -/

/-- Python exception classes that can arise inside
`prepare_background_image`'s `try` block.  `invalidDimensions` is the
condition the specification posits (`InvalidDimensions`, §7); no such
class exists anywhere in the repository (`src/core/exceptions.py` exports
none), it is included only so the specified behaviour is expressible. -/
inductive FitError where
  | zeroDivision
  | invalidDimensions
deriving DecidableEq

/-- Geometry computed by the `try` block of `prepare_background_image`:
the resized dimensions `(new_width, new_height)` and the PIL crop box
`(left, upper, right, lower)` applied to the resized image.  All fields
are Python ints (`ℤ`): the crop offsets come from Python's floor
division `//` and can be negative, in which case PIL crops outside the
image. -/
structure CoverFit where
  new_width : ℤ
  new_height : ℤ
  crop_left : ℤ
  crop_upper : ℤ
  crop_right : ℤ
  crop_lower : ℤ
deriving DecidableEq

/-- Embedding of the arithmetic inside the `try` block of
`BackgroundManager.prepare_background_image`, for a source of `w × h`
pixels and a slide of `sw × sh` pixels.  Division by zero raises
`ZeroDivisionError` in Python: computing `img_ratio = w / h` fails when
`h = 0`, `slide_ratio = sw / sh` fails when `sh = 0`, and in the
taller-branch `new_width / img_ratio` fails when `img_ratio` is zero,
i.e. when `w = 0`.  The ratios are correctly rounded doubles, compared
exactly (`flt slide_ratio img_ratio` is `img_ratio > slide_ratio`);
`int(...)` is truncation of the rounded product/quotient; Python's `//`
is floor division, i.e. `Int.ediv` for the positive divisor 2. -/
def prepare_background_inner (w h sw sh : ℕ) : Except FitError CoverFit :=
  if h = 0 then .error .zeroDivision
  else if sh = 0 then .error .zeroDivision
  else if flt (pyDiv (floatOfNat sw) (floatOfNat sh))
      (pyDiv (floatOfNat w) (floatOfNat h)) then
    let new_height : ℤ := sh
    let new_width : ℤ :=
      fint (pyMul (floatOfNat sh) (pyDiv (floatOfNat w) (floatOfNat h)))
    let left := Int.ediv (new_width - sw) 2
    .ok { new_width := new_width, new_height := new_height,
          crop_left := left, crop_upper := 0,
          crop_right := left + sw, crop_lower := sh }
  else if w = 0 then .error .zeroDivision
  else
    let new_width : ℤ := sw
    let new_height : ℤ :=
      fint (pyDiv (floatOfNat sw) (pyDiv (floatOfNat w) (floatOfNat h)))
    let top := Int.ediv (new_height - sh) 2
    .ok { new_width := new_width, new_height := new_height,
          crop_left := 0, crop_upper := top,
          crop_right := sw, crop_lower := top + sh }

/-- Observable outcome of `prepare_background_image`: either the
processed background (the `try` block succeeded) or the original
`image_path` returned unchanged by the blanket
`except Exception: ... return image_path` handler, which records the
absorbed exception. -/
inductive PrepResult where
  | processed (fit : CoverFit)
  | fallbackOriginal (absorbed : FitError)
deriving DecidableEq

/-- Embedding of `BackgroundManager.prepare_background_image` as a whole:
any exception raised inside the `try` block is caught, a warning is
printed, and the original path is returned. -/
def prepare_background_image (w h sw sh : ℕ) : PrepResult :=
  match prepare_background_inner w h sw sh with
  | .ok fit => .processed fit
  | .error e => .fallbackOriginal e

/-! ### `PresentationFactory._parse_analysis_result` -/

/-- One parsed slide dict, as built by `_parse_analysis_result` (the
fields of the `current_slide` dict, which are copied verbatim into
`SlideData`; in particular `slide_type` is a plain string). -/
structure ParsedSlide where
  title : List Char
  points : List (List Char)
  theme : List Char
  slide_type : List Char
deriving DecidableEq

/-- The fresh `current_slide` dict created at each `SLIDE` marker. -/
def initSlide : ParsedSlide :=
  { title := [], points := [], theme := "corporate_modern".data,
    slide_type := "content_slide".data }

/-- Embedding of `clean_line = line.replace("**", "").replace("*", "")`. -/
def cleanLine (line : List Char) : List Char :=
  pyReplace (pyReplace line "**".data []) "*".data []

/-- Marker test of the parser:
`(clean_line.startswith("SLIDE ") and " - " in clean_line) or
line.startswith("**SLIDE ")`, where `line` is the stripped raw line. -/
def isMarkerLine (raw : List Char) : Bool :=
  let line := pyStrip raw
  let clean := cleanLine line
  (startsWithList "SLIDE ".data clean && containsSub " - ".data clean) ||
    startsWithList "**SLIDE ".data line

/-- A raw line that would hit the `TITLE:` branch test of the parser. -/
def isTitleish (raw : List Char) : Bool :=
  startsWithList "TITLE:".data (cleanLine (pyStrip raw)) ||
    startsWithList "**TITLE:".data (pyStrip raw)

/-- A raw line that would hit the `THEME_SUGGESTION:` branch test. -/
def isThemeish (raw : List Char) : Bool :=
  startsWithList "THEME_SUGGESTION:".data (cleanLine (pyStrip raw)) ||
    startsWithList "**THEME_SUGGESTION:".data (pyStrip raw)

/-- A raw line that would hit the `SLIDE_TYPE:` branch test of the
parser (on the stripped line). -/
def isSlideTypeish (raw : List Char) : Bool :=
  startsWithList "SLIDE_TYPE:".data (cleanLine (pyStrip raw)) ||
    startsWithList "**SLIDE_TYPE:".data (pyStrip raw)

/-- A raw line that would hit the bullet branch test
(`line.startswith("- ") or line.startswith("**- ")`). -/
def isBulletish (raw : List Char) : Bool :=
  startsWithList "- ".data (pyStrip raw) ||
    startsWithList "**- ".data (pyStrip raw)

/-- Value stored by the `TITLE:` branch:
`clean_line.replace("TITLE:", "").strip()`. -/
def titlePayload (raw : List Char) : List Char :=
  pyStrip (pyReplace (cleanLine (pyStrip raw)) "TITLE:".data [])

/-- Value stored by the `THEME_SUGGESTION:` branch. -/
def themePayload (raw : List Char) : List Char :=
  pyStrip (pyReplace (cleanLine (pyStrip raw)) "THEME_SUGGESTION:".data [])

/-- Value stored by the `SLIDE_TYPE:` branch:
`clean_line.replace("SLIDE_TYPE:", "").strip()` — the raw tag string,
with no lookup or validation of any kind. -/
def slideTypePayload (raw : List Char) : List Char :=
  pyStrip (pyReplace (cleanLine (pyStrip raw)) "SLIDE_TYPE:".data [])

/-- Value appended by the bullet branch:
`line.replace("**", "").replace("- ", "").strip()`. -/
def bulletPayload (raw : List Char) : List Char :=
  pyStrip (pyReplace (pyReplace (pyStrip raw) "**".data []) "- ".data [])

/-- Embedding of one iteration of the parsing loop of
`_parse_analysis_result`.  The state is the pair
`(current_slide, slides_data)`.  Each branch requires
`current_slide is not None` except the marker branch, which flushes the
current slide and opens a fresh one; unrecognized lines fall through with
no effect.  (The line-classifier helpers above recompute
`line = raw.strip()` and `clean_line`; the source computes them once per
iteration — the values are identical.) -/
def processLine (st : Option ParsedSlide × List ParsedSlide)
    (raw : List Char) : Option ParsedSlide × List ParsedSlide :=
  if isMarkerLine raw then
    (some initSlide, st.2 ++ st.1.toList)
  else if isTitleish raw && st.1.isSome then
    (st.1.map (fun s => { s with title := titlePayload raw }), st.2)
  else if isThemeish raw && st.1.isSome then
    (st.1.map (fun s => { s with theme := themePayload raw }), st.2)
  else if isSlideTypeish raw && st.1.isSome then
    (st.1.map (fun s => { s with slide_type := slideTypePayload raw }), st.2)
  else if isBulletish raw && st.1.isSome then
    (if bulletPayload raw ≠ [] then
      st.1.map (fun s => { s with points := s.points ++ [bulletPayload raw] })
    else st.1, st.2)
  else st

/-- Embedding of `_parse_analysis_result` (the pure parsing part, through
the dict stage; the `SlideData` objects built afterwards copy `title`,
`points` and `slide_type` verbatim from these dicts, since every dict key
is always present). -/
def parse_analysis_result (analysis_result : String) : List ParsedSlide :=
  let lines := splitOnNl (pyStrip analysis_result.data)
  let st := lines.foldl processLine (none, [])
  st.2 ++ st.1.toList

/-- Count of marker lines in the input, as split and stripped by the
parser. -/
def countSlideMarkers (analysis_result : String) : ℕ :=
  (splitOnNl (pyStrip analysis_result.data)).countP (fun l => isMarkerLine l)

/-! ### Definitions following the specification's words (for refinement
comparisons only; the definitions above follow the source) -/

/-- Modelled from the spec: the §4.3 LayoutSelector decision table, which
the source's `calculate_optimal_layout` is claimed to implement.  Kinds
are rendered by their obvious lower-case tags; rule 4 reads
`record.kind ∈ {Features, Metrics} → "two_column" if the record has ≥ 4
bullets, else "title_content"`. -/
def spec_select (kind : String) (num_bullets : ℕ)
    (has_image : Bool) (has_diagram : Bool) : String :=
  if kind = "title_slide" then "title_slide"
  else if has_diagram then "diagram_focus"
  else if has_image then "image_text"
  else if kind = "features" ∨ kind = "metrics" then
    (if 4 ≤ num_bullets then "two_column" else "title_content")
  else "title_content"

/-- Modelled from the spec: the §4.4 font bucket function, literally
`< 50 chars → font_range.max`; `< 150 → max − 0.3×(max−min)`;
`< 300 → max − 0.6×(max−min)`; else `font_range.min`, as an exact
rational value. -/
def specFontSizeQ (len : ℕ) (min_size max_size : ℚ) : ℚ :=
  if len < 50 then max_size
  else if len < 150 then max_size - 3 * (max_size - min_size) / 10
  else if len < 300 then max_size - 6 * (max_size - min_size) / 10
  else min_size

/-- The exact-arithmetic bucket-floor function: what
`calculate_font_size` would return were `int(min + (max - min) * 0.7)`
computed in exact arithmetic (natural floor division).  Used to compare
the float-faithful definition against the exact floor of the spec's
bucket values. -/
def exactFontFloor (len min_size max_size : ℕ) : ℕ :=
  if len < 50 then max_size
  else if len < 150 then min_size + 7 * (max_size - min_size) / 10
  else if len < 300 then min_size + 4 * (max_size - min_size) / 10
  else min_size

/-- Modelled from the spec: the string tags of the six §3 `kind` values
`{TitleSlide, Architecture, Features, Metrics, Roadmap, Content}`, using
the tag strings the source dispatches on (`factory.py`,
`pptx_engine.py`). -/
def valid_slide_type_tags : List (List Char) :=
  ["title_slide".data, "architecture_slide".data, "features_slide".data,
   "metrics_slide".data, "roadmap_slide".data, "content_slide".data]

/-! ### Concrete inputs used by witnesses and counterexamples -/

/-- Scenario B bullet: `"a very long point " * 20` (360 characters). -/
def bigBullet : List Char := (List.replicate 20 "a very long point ".data).flatten

/-- A region with `text_budget = 50` (Scenario B). -/
def region50 : LayoutRegion :=
  { name := "content",
    position := { x := 0.5, y := 1.7, width := 12.33, height := 5.3, z_index := 5 },
    alignment := .left, maxTextLength := some 50, fontSizeRange := (14, 18) }

/-- Scenario C: seven bullets (scores 91, 92, 89, 90, 88, 92, 91 — two
tied pairs). -/
def sevenBullets : List (List Char) :=
  ["alpha one".data, "beta two".data, "gamma three".data, "delta four".data,
   "epsilon five".data, "zeta six".data, "eta seven".data]

/-- Two bullets, within the default cap of 4. -/
def twoBullets : List (List Char) := ["alpha".data, "beta".data]

/-- The `content` region of the Title + Content layout (font range
`(14, 18)`), spelled exactly as in `title_content_regions`. -/
def c4_region : LayoutRegion :=
  { name := "content",
    position := { x := MARGIN_LEFT, y := MARGIN_TOP + 1.2,
                  width := SLIDE_WIDTH - MARGIN_LEFT - MARGIN_RIGHT,
                  height := SLIDE_HEIGHT - MARGIN_TOP - MARGIN_BOTTOM - 1.2,
                  z_index := 5 },
    alignment := .left, maxTextLength := some 500, fontSizeRange := (14, 18) }

/-- A 100-character text (falls in the `< 150` bucket). -/
def c4_text : List Char := List.replicate 100 'x'

/-- Every region of every template in the catalog (the only regions the
program ever constructs). -/
def all_catalog_regions : List LayoutRegion :=
  title_slide_regions ++ title_content_regions ++ two_column_regions ++
    image_text_regions ++ diagram_focus_regions

/-- A region with the font range `(1, 91)`, on which Python's float
truncation falls below the exact bucket floor
(`int(1 + 90 * 0.7) = 63` while `⌊1 + 63⌋ = 64`). -/
def c4_wide_region : LayoutRegion :=
  { name := "content",
    position := { x := 0.5, y := 1.7, width := 12.33, height := 5.3, z_index := 5 },
    alignment := .left, maxTextLength := none, fontSizeRange := (1, 91) }

/-- A region with `text_budget = 90`: the float threshold
`90 * 0.7 = 62.99999999999999` sits just below the exact 70% mark 63. -/
def region90 : LayoutRegion :=
  { name := "content",
    position := { x := 0.5, y := 1.7, width := 12.33, height := 5.3, z_index := 5 },
    alignment := .left, maxTextLength := some 90, fontSizeRange := (14, 18) }

/-- A 94-character bullet whose only `'.'` sits at index 63 — exactly
70% of the budget 90, not past it. -/
def c5x_text : List Char :=
  List.replicate 63 'a' ++ ['.'] ++ List.replicate 30 'b'

/-- The cover-fit geometry the program computes for a 9×7 source and a
9×7 destination: the resized height 6 undershoots the destination height
7 and the crop box starts at row −1, outside the image. -/
def crop9x7 : CoverFit :=
  { new_width := 9, new_height := 6, crop_left := 0, crop_upper := -1,
    crop_right := 9, crop_lower := 6 }

/-- Parser input whose `SLIDE_TYPE:` tag is not one of the six enum
tags. -/
def c3_input : String := "SLIDE 1 - INTRO\nSLIDE_TYPE: banana_slide"

/-- Parser input containing no `SLIDE_TYPE:` line at all. -/
def c3_plain_input : String := "SLIDE 1 - INTRO\nTITLE: Hello\n- first point"

/-! ## Claim C10: bullet prioritization is the identity within the cap -/

/-- C10: for every bullet list whose length is at most `max_points`, the
bullet-prioritization operation returns the list unchanged — same
elements in the same order, with no scoring, reordering, or dropping
applied below the cap. -/
theorem C10_optimize_bullet_points_id_within_cap
    (points : List (List Char)) (max_points : ℕ)
    (h : points.length ≤ max_points) :
    optimize_bullet_points points max_points = points := by
  unfold optimize_bullet_points
  exact if_pos h

/-- Witness for C10 at a concrete two-bullet list and the default cap 4. -/
theorem C10_witness :
    twoBullets.length ≤ 4 ∧ optimize_bullet_points twoBullets 4 = twoBullets :=
  ⟨by decide, C10_optimize_bullet_points_id_within_cap twoBullets 4 (by decide)⟩

/-! ## Claim C8: catalog lookup of an absent layout name -/

/-- C8 counterexample: the `CONTENT_ONLY` layout name is absent from the
catalog table, yet requesting it does not fail — `get_layout` silently
substitutes the Title + Content regions at runtime, contradicting the
claimed fail-fast construction-time invariant. -/
theorem C8_counterexample_silent_fallback :
    layouts LayoutType.contentOnly = none ∧
    get_layout LayoutType.contentOnly = title_content_regions :=
  ⟨rfl, rfl⟩

/-- C8 (amended): lookup of a name absent from the catalog silently falls
back to the Title + Content template per call; however, every layout name
the selector can emit is present in the catalog, so for selector-emitted
names lookup returns that template's own regions and the fallback is
never exercised. -/
theorem C8_selector_names_resolve
    (content_type : String) (has_image has_diagram : Bool) :
    layouts (calculate_optimal_layout content_type has_image has_diagram) =
      some (get_layout (calculate_optimal_layout content_type has_image has_diagram)) := by
  unfold calculate_optimal_layout
  split_ifs <;> rfl

/-! ## Claim C2: zero-area source rejection -/

/-- Helper: the binary64 unit in the last place has a positive
numerator. -/
theorem pow2ulp_num_pos (e : ℤ) : 0 < (pow2ulp e).num := by
  unfold pow2ulp
  split_ifs <;> positivity

/-- Helper: rounding a non-negative fraction to binary64 keeps the
numerator non-negative. -/
theorem roundPos_num_nonneg (x : Frac) (hx : 0 ≤ x.num) :
    0 ≤ (roundPos x).num := by
  simp only [roundPos]
  set ulp := pow2ulp (fexp x) with hulp
  have hulpnum : 0 < ulp.num := pow2ulp_num_pos _
  set m := fdivF x ulp with hm
  have hmnum : 0 ≤ m.num := by
    rw [hm]
    unfold fdivF fmul finv
    rw [if_neg (not_lt.mpr (le_of_lt hulpnum))]
    exact mul_nonneg hx (Int.natCast_nonneg _)
  have hnn : 0 ≤ ffloor m := Int.ediv_nonneg hmnum (Int.natCast_nonneg _)
  unfold fmul
  dsimp only
  split_ifs <;> exact mul_nonneg (by omega) (le_of_lt hulpnum)

/-- Helper: `roundDouble` preserves non-negativity of the numerator. -/
theorem roundDouble_num_nonneg (x : Frac) (hx : 0 ≤ x.num) :
    0 ≤ (roundDouble x).num := by
  unfold roundDouble
  split_ifs with h0 hneg
  · exact le_refl 0
  · exact absurd hneg (not_lt.mpr hx)
  · exact roundPos_num_nonneg x hx

/-- Helper: a Python int converts to a float with non-negative
numerator. -/
theorem floatOfNat_num_nonneg (n : ℕ) : 0 ≤ (floatOfNat n).num :=
  roundDouble_num_nonneg _ (Int.natCast_nonneg n)

/-- Helper: dividing the float zero by anything yields the float
zero. -/
theorem pyDiv_zero_left (y : Frac) : pyDiv ⟨0, 1⟩ y = ⟨0, 1⟩ := by
  show roundDouble (fmul ⟨0, 1⟩ (finv y)) = ⟨0, 1⟩
  unfold fmul
  dsimp only
  rw [zero_mul]
  unfold roundDouble
  rw [if_pos rfl]

/-- Helper: a float quotient of non-negative floats has a non-negative
numerator. -/
theorem pyDiv_num_nonneg (a b : Frac) (ha : 0 ≤ a.num) (hb : 0 ≤ b.num) :
    0 ≤ (pyDiv a b).num := by
  unfold pyDiv
  apply roundDouble_num_nonneg
  unfold fdivF fmul finv
  rw [if_neg (not_lt.mpr hb)]
  exact mul_nonneg ha (Int.natCast_nonneg _)

/-- C2 counterexample: `prepare_background_image` with source dimensions
`(0, 768)` does not raise `InvalidDimensions` — the internal
`ZeroDivisionError` is absorbed by the blanket `except` handler and the
original image path is returned unchanged. -/
theorem C2_counterexample_zero_source :
    prepare_background_image 0 768 1920 1080 =
      PrepResult.fallbackOriginal FitError.zeroDivision ∧
    prepare_background_image 0 768 1920 1080 ≠
      PrepResult.fallbackOriginal FitError.invalidDimensions := by
  exact ⟨by decide, by decide⟩

/-- C2 (amended): a zero source width, zero source height, or zero
destination height makes the cover-fitting arithmetic raise an internal
`ZeroDivisionError`, which the catch-all handler absorbs; the function
then returns the original image path rather than signalling any
`InvalidDimensions` condition. -/
theorem C2_zero_dims_swallowed (w h sw sh : ℕ)
    (hz : w = 0 ∨ h = 0 ∨ sh = 0) :
    prepare_background_image w h sw sh =
      PrepResult.fallbackOriginal FitError.zeroDivision := by
  rcases hz with hw | hh | hsh
  · subst hw
    by_cases hh : h = 0
    · simp [prepare_background_image, prepare_background_inner, hh]
    · by_cases hsh : sh = 0
      · simp [prepare_background_image, prepare_background_inner, hh, hsh]
      · have hcond : ¬ flt (pyDiv (floatOfNat sw) (floatOfNat sh))
            (pyDiv (floatOfNat 0) (floatOfNat h)) := by
          rw [show floatOfNat 0 = (⟨0, 1⟩ : Frac) from rfl, pyDiv_zero_left]
          intro hlt
          have hnn : 0 ≤ (pyDiv (floatOfNat sw) (floatOfNat sh)).num :=
            pyDiv_num_nonneg _ _ (floatOfNat_num_nonneg sw)
              (floatOfNat_num_nonneg sh)
          unfold flt at hlt
          simp only [Nat.cast_one, mul_one, zero_mul] at hlt
          omega
        simp [prepare_background_image, prepare_background_inner, hh, hsh,
          hcond]
  · subst hh
    simp [prepare_background_image, prepare_background_inner]
  · subst hsh
    by_cases hh : h = 0
    · simp [prepare_background_image, prepare_background_inner, hh]
    · simp [prepare_background_image, prepare_background_inner, hh]

/-- Witness for C2 (amended) at source `(0, 768)` and the default slide
size `1920 × 1080`. -/
theorem C2_zero_dims_witness :
    (0 = 0 ∨ 768 = 0 ∨ 1080 = 0) ∧
    prepare_background_image 0 768 1920 1080 =
      PrepResult.fallbackOriginal FitError.zeroDivision :=
  ⟨Or.inl rfl, C2_zero_dims_swallowed 0 768 1920 1080 (Or.inl rfl)⟩

/-! ## Claim C1: the layout selection table -/

/-- C1 counterexample: for `content_type = "features"` with no image and
no diagram, the code returns `two_column` regardless of bullet count,
whereas the claimed table demands `title_content` for a Features record
with fewer than 4 bullets. -/
theorem C1_counterexample_features_bullets :
    (calculate_optimal_layout "features" false false).value = "two_column" ∧
    spec_select "features" 0 false false = "title_content" ∧
    ("two_column" : String) ≠ "title_content" := by
  exact ⟨by decide, by decide, by decide⟩

/-- C1 (amended): the selector's precedence order is
`content_type = "title_slide"` → title slide; else a diagram → diagram
focus; else an image → image + text; else
`content_type ∈ {"features", "comparison"}` → two column, with no bullet
count involved (in particular "metrics" gets title + content); else
title + content.  The function is total and always emits a name present
in the catalog. -/
theorem C1_amended_selector_table
    (content_type : String) (has_image has_diagram : Bool) :
    (layouts (calculate_optimal_layout content_type has_image has_diagram)).isSome = true ∧
    (content_type = "title_slide" →
      calculate_optimal_layout content_type has_image has_diagram = .titleSlide) ∧
    (content_type ≠ "title_slide" → has_diagram = true →
      calculate_optimal_layout content_type has_image has_diagram = .diagramFocus) ∧
    (content_type ≠ "title_slide" → has_diagram = false → has_image = true →
      calculate_optimal_layout content_type has_image has_diagram = .imageText) ∧
    (content_type ≠ "title_slide" → has_diagram = false → has_image = false →
      (content_type = "features" ∨ content_type = "comparison") →
      calculate_optimal_layout content_type has_image has_diagram = .twoColumn) ∧
    (content_type ≠ "title_slide" → has_diagram = false → has_image = false →
      content_type ≠ "features" → content_type ≠ "comparison" →
      calculate_optimal_layout content_type has_image has_diagram = .titleContent) := by
  refine ⟨?_, ?_, ?_, ?_, ?_, ?_⟩
  · unfold calculate_optimal_layout
    split_ifs <;> rfl
  · intro h1
    simp [calculate_optimal_layout, h1]
  · intro h1 h2
    simp [calculate_optimal_layout, h1, h2]
  · intro h1 h2 h3
    simp [calculate_optimal_layout, h1, h2, h3]
  · intro h1 h2 h3 h4
    rcases h4 with h4 | h4 <;> simp [calculate_optimal_layout, h1, h2, h3, h4]
  · intro h1 h2 h3 h4 h5
    simp [calculate_optimal_layout, h1, h2, h3, h4, h5]

/-- Witness for C1 (amended): `"metrics"` with no image and no diagram
resolves to `title_content`, and the emitted name is in the catalog. -/
theorem C1_amended_witness :
    (layouts (calculate_optimal_layout "metrics" false false)).isSome = true ∧
    calculate_optimal_layout "metrics" false false = LayoutType.titleContent :=
  ⟨(C1_amended_selector_table "metrics" false false).1,
   (C1_amended_selector_table "metrics" false false).2.2.2.2.2
     (by decide) rfl rfl (by decide) (by decide)⟩

/-! ## Claim C4: font size selection -/

/-- Helper: natural floor division by 10 agrees with the rational
floor. -/
theorem nat_div_ten_floor (n : ℕ) : ((n / 10 : ℕ) : ℤ) = ⌊(n : ℚ) / 10⌋ := by
  symm
  rw [Int.floor_eq_iff]
  constructor
  · rw [le_div_iff₀ (by norm_num : (0:ℚ) < 10)]
    exact_mod_cast Nat.div_mul_le_self n 10
  · rw [div_lt_iff₀ (by norm_num : (0:ℚ) < 10)]
    have h : n < (n / 10 + 1) * 10 := by
      have := Nat.div_add_mod n 10
      have := Nat.mod_lt n (show 0 < 10 by norm_num)
      omega
    exact_mod_cast h

/-- Helper: adding a natural to a natural floor division by 10 is the
rational floor of the corresponding sum. -/
theorem add_nat_div_ten_floor (a n : ℕ) :
    ((a + n / 10 : ℕ) : ℤ) = ⌊(a : ℚ) + (n : ℚ) / 10⌋ := by
  have h1 : ((a : ℕ) : ℚ) = ((a : ℤ) : ℚ) := by push_cast; ring
  rw [h1, Int.floor_int_add, ← nat_div_ten_floor n]
  push_cast
  ring

/-- Helper: the exact-arithmetic bucket-floor function is the integer
floor of the spec's bucket value and respects the range bounds, for any
range with `min ≤ max`. -/
theorem exactFontFloor_spec (a b : ℕ) (h : a ≤ b) (len : ℕ) :
    a ≤ exactFontFloor len a b ∧
    exactFontFloor len a b ≤ b ∧
    ((exactFontFloor len a b : ℕ) : ℤ) =
      ⌊specFontSizeQ len (a : ℚ) (b : ℚ)⌋ := by
  simp only [exactFontFloor, specFontSizeQ]
  have hbq : (b : ℚ) = (a : ℚ) + ((b - a : ℕ) : ℚ) := by
    push_cast [Nat.cast_sub h]
    ring
  split_ifs with h1 h2 h3
  · exact ⟨h, le_refl b, (Int.floor_natCast b).symm⟩
  · have hdm := Nat.div_add_mod (7 * (b - a)) 10
    refine ⟨Nat.le_add_right a _, by omega, ?_⟩
    have key : (b : ℚ) - 3 * ((b : ℚ) - (a : ℚ)) / 10 =
        (a : ℚ) + ((7 * (b - a) : ℕ) : ℚ) / 10 := by
      rw [hbq]
      push_cast
      ring
    rw [key]
    exact add_nat_div_ten_floor a (7 * (b - a))
  · have hdm := Nat.div_add_mod (4 * (b - a)) 10
    refine ⟨Nat.le_add_right a _, by omega, ?_⟩
    have key : (b : ℚ) - 6 * ((b : ℚ) - (a : ℚ)) / 10 =
        (a : ℚ) + ((4 * (b - a) : ℕ) : ℚ) / 10 := by
      rw [hbq]
      push_cast
      ring
    rw [key]
    exact add_nat_div_ten_floor a (4 * (b - a))
  · exact ⟨le_refl a, h, (Int.floor_natCast a).symm⟩

/-- Helper: packaging of the C4 conclusion for one concrete font range:
if the float computation agrees with the exact bucket floor on this
range, the bounds and the floor identity follow. -/
theorem font_range_case (region : LayoutRegion) (text : List Char)
    (a b : ℕ) (hr : region.fontSizeRange = (a, b)) (hab : a ≤ b)
    (hfl : calculate_font_size text region = exactFontFloor text.length a b) :
    region.fontSizeRange.1 ≤ calculate_font_size text region ∧
    calculate_font_size text region ≤ region.fontSizeRange.2 ∧
    ((calculate_font_size text region : ℕ) : ℤ) =
      ⌊specFontSizeQ text.length (region.fontSizeRange.1 : ℚ)
        (region.fontSizeRange.2 : ℚ)⌋ := by
  obtain ⟨h1, h2, h3⟩ := exactFontFloor_spec a b hab text.length
  rw [hr, hfl]
  exact ⟨h1, h2, h3⟩

/-- C4 counterexample: for a 100-character text in a region with font
range `(14, 18)` the code chooses `int(14 + 4 * 0.7) = 16`, while the
claimed bucket value `max − 0.3 × (max − min)` is `16.8 = 84/5`: the
chosen size does not equal the spec's bucket function.  Moreover the
code does not even compute the floor of the bucket value for every
`min ≤ max` range: on the range `(1, 91)` it returns
`int(1 + 90 * 0.7) = 63` (the double `90 * 0.7` is
`62.99999999999999…`), while the exact bucket value is 64. -/
theorem C4_counterexample_not_exact_bucket :
    ((calculate_font_size c4_text c4_region : ℕ) : ℚ) ≠
      specFontSizeQ c4_text.length (c4_region.fontSizeRange.1 : ℚ)
        (c4_region.fontSizeRange.2 : ℚ) ∧
    calculate_font_size c4_text c4_region = 16 ∧
    specFontSizeQ c4_text.length (c4_region.fontSizeRange.1 : ℚ)
      (c4_region.fontSizeRange.2 : ℚ) = 84 / 5 ∧
    calculate_font_size c4_text c4_wide_region = 63 ∧
    specFontSizeQ c4_text.length (c4_wide_region.fontSizeRange.1 : ℚ)
      (c4_wide_region.fontSizeRange.2 : ℚ) = 64 := by
  have h16 : calculate_font_size c4_text c4_region = 16 := by decide
  have h63 : calculate_font_size c4_text c4_wide_region = 63 := by decide
  have hlen : c4_text.length = 100 := by decide
  have hr1 : c4_region.fontSizeRange = (14, 18) := rfl
  have hr2 : c4_wide_region.fontSizeRange = (1, 91) := rfl
  have hspec : specFontSizeQ c4_text.length (c4_region.fontSizeRange.1 : ℚ)
      (c4_region.fontSizeRange.2 : ℚ) = 84 / 5 := by
    rw [hlen, hr1]
    norm_num [specFontSizeQ]
  have hspec2 : specFontSizeQ c4_text.length
      (c4_wide_region.fontSizeRange.1 : ℚ)
      (c4_wide_region.fontSizeRange.2 : ℚ) = 64 := by
    rw [hlen, hr2]
    norm_num [specFontSizeQ]
  refine ⟨?_, h16, hspec, h63, hspec2⟩
  rw [h16, hspec]
  norm_num

/-- C4 (amended): for every region of the program's layout catalog (all
of which have `min ≤ max`) and every text, the chosen font size equals
the integer floor of the spec's total-length bucket value and lies
within `[font_range.min, font_range.max]`.  For arbitrary `min ≤ max`
ranges the float truncation can fall one below the exact floor (the
counterexample's `(1, 91)` range), so the floor identity is stated for
the ranges the program actually constructs. -/
theorem C4_amended_catalog_font_floor (region : LayoutRegion)
    (hmem : region ∈ all_catalog_regions) (text : List Char) :
    region.fontSizeRange.1 ≤ calculate_font_size text region ∧
    calculate_font_size text region ≤ region.fontSizeRange.2 ∧
    ((calculate_font_size text region : ℕ) : ℤ) =
      ⌊specFontSizeQ text.length (region.fontSizeRange.1 : ℚ)
        (region.fontSizeRange.2 : ℚ)⌋ := by
  simp only [all_catalog_regions, title_slide_regions, title_content_regions,
    two_column_regions, image_text_regions, diagram_focus_regions,
    List.mem_append, List.mem_cons, List.not_mem_nil, or_false,
    or_assoc] at hmem
  rcases hmem with rfl | rfl | rfl | rfl | rfl | rfl | rfl | rfl | rfl | rfl |
    rfl | rfl | rfl <;>
  · refine font_range_case _ text _ _ rfl (by norm_num) ?_
    unfold calculate_font_size exactFontFloor
    split_ifs <;> decide

/-- Witness for C4 (amended) at the 100-character text and the `content`
region of the Title + Content template (font range `(14, 18)`). -/
theorem C4_amended_witness :
    c4_region ∈ all_catalog_regions ∧
    (c4_region.fontSizeRange.1 ≤ calculate_font_size c4_text c4_region ∧
     calculate_font_size c4_text c4_region ≤ c4_region.fontSizeRange.2 ∧
     ((calculate_font_size c4_text c4_region : ℕ) : ℤ) =
       ⌊specFontSizeQ c4_text.length (c4_region.fontSizeRange.1 : ℚ)
         (c4_region.fontSizeRange.2 : ℚ)⌋) := by
  have h1 : c4_region ∈ title_content_regions := by
    unfold title_content_regions c4_region
    exact List.mem_cons_of_mem _ (List.mem_cons_self _ _)
  have hm : c4_region ∈ all_catalog_regions := by
    unfold all_catalog_regions
    exact List.mem_append_left _ (List.mem_append_left _
      (List.mem_append_left _ (List.mem_append_right _ h1)))
  exact ⟨hm, C4_amended_catalog_font_floor c4_region hm c4_text⟩

/-! ## Claim C5: per-bullet truncation against the text budget -/

/-- Helper: `pyTake` with a non-negative count yields at most that many
characters. -/
theorem pyTake_length_le (n : ℤ) (s : List Char) (hn : 0 ≤ n) :
    (pyTake n s).length ≤ n.toNat := by
  unfold pyTake
  rw [if_pos hn]
  exact List.length_take_le n.toNat s

set_option maxRecDepth 8000 in
/-- C5 counterexample: at budget 90 the float threshold `90 * 0.7` is
`62.99999999999999`, strictly below the exact 70% mark 63.  For a bullet
whose last `'.'` in the 87-character prefix sits at index 63 — exactly
70% of the budget, not past it — and which has no space, the claim
prescribes the hard cut with an appended ellipsis, but the program takes
the sentence cut (the 64-character prefix ending at the period). -/
theorem C5_counterexample_boundary_at_70 :
    (validate_text_length c5x_text region90).2 = true ∧
    (validate_text_length c5x_text region90).1 =
      (pyTake ((90 : ℤ) - 3) c5x_text).take 64 ∧
    lastIdxOf periodChar (pyTake ((90 : ℤ) - 3) c5x_text) = 63 ∧
    ¬ (10 * lastIdxOf periodChar (pyTake ((90 : ℤ) - 3) c5x_text) >
      7 * (90 : ℤ)) ∧
    lastIdxOf spaceChar (pyTake ((90 : ℤ) - 3) c5x_text) = -1 ∧
    (validate_text_length c5x_text region90).1 ≠
      pyTake ((90 : ℤ) - 3) c5x_text ++ ellipsis :=
  ⟨by decide, by decide, by decide, by decide, by decide, by decide⟩

/-- C5 (amended): for every bullet string longer than the region's text
budget (of at least 3), the result is marked truncated, stays within the
budget, and the cut is made at the last sentence boundary `'.'` of the
`budget − 3` prefix when its index exceeds the double `budget * 0.7`
(marginally below the exact 70% mark for some budgets, e.g. 90), else at
the last word boundary whose index exceeds the double `budget * 0.8`
(plus an ellipsis), else the prefix is hard-truncated with an appended
ellipsis. -/
theorem C5_amended_float_threshold_truncation (text : List Char)
    (region : LayoutRegion) (budget : ℕ)
    (hbud : region.maxTextLength = some budget)
    (h3 : 3 ≤ budget) (hlen : budget < text.length) :
    (validate_text_length text region).2 = true ∧
    (validate_text_length text region).1.length ≤ budget ∧
    (if flt (pyMul (floatOfNat budget) float07)
        ⟨lastIdxOf periodChar (pyTake ((budget : ℤ) - 3) text), 1⟩ then
      (validate_text_length text region).1 =
        (pyTake ((budget : ℤ) - 3) text).take
          ((lastIdxOf periodChar (pyTake ((budget : ℤ) - 3) text)).toNat + 1)
    else if flt (pyMul (floatOfNat budget) float08)
        ⟨lastIdxOf spaceChar (pyTake ((budget : ℤ) - 3) text), 1⟩ then
      (validate_text_length text region).1 =
        (pyTake ((budget : ℤ) - 3) text).take
          (lastIdxOf spaceChar (pyTake ((budget : ℤ) - 3) text)).toNat ++ ellipsis
    else
      (validate_text_length text region).1 =
        pyTake ((budget : ℤ) - 3) text ++ ellipsis) := by
  have ht : (pyTake ((budget : ℤ) - 3) text).length ≤ budget - 3 := by
    have h0 : (0 : ℤ) ≤ (budget : ℤ) - 3 := by omega
    have := pyTake_length_le ((budget : ℤ) - 3) text h0
    omega
  have hell : ellipsis.length = 3 := rfl
  simp only [validate_text_length, hbud]
  rw [if_neg (by omega : ¬ text.length ≤ budget)]
  split_ifs with hp hs
  · refine ⟨rfl, ?_, rfl⟩
    rw [List.length_take]
    omega
  · refine ⟨rfl, ?_, rfl⟩
    rw [List.length_append, List.length_take, hell]
    omega
  · refine ⟨rfl, ?_, rfl⟩
    rw [List.length_append, hell]
    omega

set_option maxRecDepth 8000 in
/-- Witness for C5 (amended) at Scenario B: the bullet
`"a very long point " * 20` against a budget of 50 is truncated, fits in
53 characters, and stays a single line. -/
theorem C5_witness :
    region50.maxTextLength = some 50 ∧ 3 ≤ 50 ∧ 50 < bigBullet.length ∧
    (validate_text_length bigBullet region50).2 = true ∧
    (validate_text_length bigBullet region50).1.length ≤ 53 ∧
    (validate_text_length bigBullet region50).1.contains '\n' = false :=
  ⟨rfl, by norm_num, by decide,
   (C5_amended_float_threshold_truncation bigBullet region50 50 rfl
     (by norm_num) (by decide)).1,
   le_trans
     (C5_amended_float_threshold_truncation bigBullet region50 50 rfl
       (by norm_num) (by decide)).2.1 (by norm_num),
   by decide⟩

/-! ## Claim C7: cover-fit branch selection and crop containment -/

/-- C7 counterexample: the program violates the claimed crop
containment.  For a 9×7 source and a 9×7 destination the float ratios
are equal, so the taller branch runs, and
`new_height = int(9 / (9 / 7)) = 6` undershoots the destination height
7; the crop box is `(0, −1, 9, 6)`, which starts one row above the
resized image. -/
theorem C7_counterexample_crop_outside :
    prepare_background_inner 9 7 9 7 = .ok crop9x7 ∧
    crop9x7.crop_upper < 0 ∧
    crop9x7.new_height < 7 :=
  ⟨rfl, by decide, by decide⟩

/-- C7 (amended): for positive source and destination dimensions the
cover fit succeeds; when the float ratio comparison deems the source
relatively wider it is scaled to the destination height and cropped
symmetrically in width, otherwise scaled to the destination width and
cropped symmetrically in height; the crop rectangle has exactly the
destination's extent in the cropped dimension, spans the full resized
extent in the other, and lies within the resized image whenever the
resized dimension is at least the destination's — float rounding can
leave that dimension one pixel short (as at 9×7 into 9×7), pushing the
crop box outside the image. -/
theorem C7_amended_cover_fit (w h sw sh : ℕ)
    (hw : 0 < w) (hh : 0 < h) (_hsw : 0 < sw) (hsh : 0 < sh) :
    ∃ fit : CoverFit,
      prepare_background_inner w h sw sh = .ok fit ∧
      (flt (pyDiv (floatOfNat sw) (floatOfNat sh))
          (pyDiv (floatOfNat w) (floatOfNat h)) →
        fit.new_height = sh ∧ fit.crop_upper = 0 ∧ fit.crop_lower = sh ∧
        fit.crop_right - fit.crop_left = sw ∧
        fit.crop_left = Int.ediv (fit.new_width - sw) 2 ∧
        ((sw : ℤ) ≤ fit.new_width →
          0 ≤ fit.crop_left ∧ fit.crop_right ≤ fit.new_width)) ∧
      (¬ flt (pyDiv (floatOfNat sw) (floatOfNat sh))
          (pyDiv (floatOfNat w) (floatOfNat h)) →
        fit.new_width = sw ∧ fit.crop_left = 0 ∧ fit.crop_right = sw ∧
        fit.crop_lower - fit.crop_upper = sh ∧
        fit.crop_upper = Int.ediv (fit.new_height - sh) 2 ∧
        ((sh : ℤ) ≤ fit.new_height →
          0 ≤ fit.crop_upper ∧ fit.crop_lower ≤ fit.new_height)) := by
  unfold prepare_background_inner
  rw [if_neg (Nat.pos_iff_ne_zero.mp hh), if_neg (Nat.pos_iff_ne_zero.mp hsh)]
  by_cases hcmp : flt (pyDiv (floatOfNat sw) (floatOfNat sh))
      (pyDiv (floatOfNat w) (floatOfNat h))
  · rw [if_pos hcmp]
    refine ⟨{ new_width :=
                fint (pyMul (floatOfNat sh) (pyDiv (floatOfNat w) (floatOfNat h))),
              new_height := sh,
              crop_left := Int.ediv
                (fint (pyMul (floatOfNat sh) (pyDiv (floatOfNat w) (floatOfNat h))) - sw) 2,
              crop_upper := 0,
              crop_right := Int.ediv
                (fint (pyMul (floatOfNat sh) (pyDiv (floatOfNat w) (floatOfNat h))) - sw) 2 + sw,
              crop_lower := sh },
            rfl, fun _ => ?_, fun hc => absurd hcmp hc⟩
    refine ⟨rfl, rfl, rfl, by dsimp only; omega, rfl, ?_⟩
    intro hle
    dsimp only at hle ⊢
    have h1 := Int.ediv_add_emod
      (fint (pyMul (floatOfNat sh) (pyDiv (floatOfNat w) (floatOfNat h))) - (sw : ℤ)) 2
    have h2 := Int.emod_nonneg
      (fint (pyMul (floatOfNat sh) (pyDiv (floatOfNat w) (floatOfNat h))) - (sw : ℤ))
      (by norm_num : (2 : ℤ) ≠ 0)
    have h3 := Int.emod_lt_of_pos
      (fint (pyMul (floatOfNat sh) (pyDiv (floatOfNat w) (floatOfNat h))) - (sw : ℤ))
      (by norm_num : (0 : ℤ) < 2)
    have hbr : Int.ediv
        (fint (pyMul (floatOfNat sh) (pyDiv (floatOfNat w) (floatOfNat h))) - (sw : ℤ)) 2 =
        (fint (pyMul (floatOfNat sh) (pyDiv (floatOfNat w) (floatOfNat h))) - (sw : ℤ)) / 2 :=
      rfl
    omega
  · rw [if_neg hcmp, if_neg (Nat.pos_iff_ne_zero.mp hw)]
    refine ⟨{ new_width := sw,
              new_height :=
                fint (pyDiv (floatOfNat sw) (pyDiv (floatOfNat w) (floatOfNat h))),
              crop_left := 0,
              crop_upper := Int.ediv
                (fint (pyDiv (floatOfNat sw) (pyDiv (floatOfNat w) (floatOfNat h))) - sh) 2,
              crop_right := sw,
              crop_lower := Int.ediv
                (fint (pyDiv (floatOfNat sw) (pyDiv (floatOfNat w) (floatOfNat h))) - sh) 2 + sh },
            rfl, fun hc => absurd hc hcmp, fun _ => ?_⟩
    refine ⟨rfl, rfl, rfl, by dsimp only; omega, rfl, ?_⟩
    intro hle
    dsimp only at hle ⊢
    have h1 := Int.ediv_add_emod
      (fint (pyDiv (floatOfNat sw) (pyDiv (floatOfNat w) (floatOfNat h))) - (sh : ℤ)) 2
    have h2 := Int.emod_nonneg
      (fint (pyDiv (floatOfNat sw) (pyDiv (floatOfNat w) (floatOfNat h))) - (sh : ℤ))
      (by norm_num : (2 : ℤ) ≠ 0)
    have h3 := Int.emod_lt_of_pos
      (fint (pyDiv (floatOfNat sw) (pyDiv (floatOfNat w) (floatOfNat h))) - (sh : ℤ))
      (by norm_num : (0 : ℤ) < 2)
    have hbr : Int.ediv
        (fint (pyDiv (floatOfNat sw) (pyDiv (floatOfNat w) (floatOfNat h))) - (sh : ℤ)) 2 =
        (fint (pyDiv (floatOfNat sw) (pyDiv (floatOfNat w) (floatOfNat h))) - (sh : ℤ)) / 2 :=
      rfl
    omega

/-- Witness for C7 (amended) at Scenario D: a 1024×768 source against a
300×200 destination takes the taller branch (source relatively taller),
keeps the full resized width 300, and crops the height to 200 < 768 with
the crop box `(0, 12, 300, 212)` inside the 300×225 resized image. -/
theorem C7_witness :
    (0 < 1024 ∧ 0 < 768 ∧ 0 < 300 ∧ 0 < 200) ∧
    (∃ fit : CoverFit,
      prepare_background_inner 1024 768 300 200 = .ok fit ∧
      (flt (pyDiv (floatOfNat 300) (floatOfNat 200))
          (pyDiv (floatOfNat 1024) (floatOfNat 768)) →
        fit.new_height = 200 ∧ fit.crop_upper = 0 ∧ fit.crop_lower = 200 ∧
        fit.crop_right - fit.crop_left = 300 ∧
        fit.crop_left = Int.ediv (fit.new_width - 300) 2 ∧
        (((300 : ℕ) : ℤ) ≤ fit.new_width →
          0 ≤ fit.crop_left ∧ fit.crop_right ≤ fit.new_width)) ∧
      (¬ flt (pyDiv (floatOfNat 300) (floatOfNat 200))
          (pyDiv (floatOfNat 1024) (floatOfNat 768)) →
        fit.new_width = 300 ∧ fit.crop_left = 0 ∧ fit.crop_right = 300 ∧
        fit.crop_lower - fit.crop_upper = 200 ∧
        fit.crop_upper = Int.ediv (fit.new_height - 200) 2 ∧
        (((200 : ℕ) : ℤ) ≤ fit.new_height →
          0 ≤ fit.crop_upper ∧ fit.crop_lower ≤ fit.new_height))) ∧
    prepare_background_inner 1024 768 300 200 =
      .ok { new_width := 300, new_height := 225, crop_left := 0,
            crop_upper := 12, crop_right := 300, crop_lower := 212 } ∧
    ¬ flt (pyDiv (floatOfNat 300) (floatOfNat 200))
      (pyDiv (floatOfNat 1024) (floatOfNat 768)) ∧
    (212 - 12 : ℤ) = 200 ∧ (200 : ℕ) < 768 :=
  ⟨⟨by norm_num, by norm_num, by norm_num, by norm_num⟩,
   C7_amended_cover_fit 1024 768 300 200
     (by norm_num) (by norm_num) (by norm_num) (by norm_num),
   rfl, by decide, by decide, by decide⟩


/-! ## Claim C6: bullet prioritization beyond the cap -/

/-- Helper: `orderedInsert` under `scoreRel` passes only elements of
strictly greater score, so filtering at any one score value puts the
inserted (originally earlier) element first among its ties. -/
theorem filter_orderedInsert (sc : ℤ) (x : List Char × ℤ)
    (l : List (List Char × ℤ)) :
    (List.orderedInsert scoreRel x l).filter (fun y => y.2 == sc) =
      if x.2 == sc then x :: l.filter (fun y => y.2 == sc)
      else l.filter (fun y => y.2 == sc) := by
  induction l with
  | nil =>
    by_cases hx : x.2 = sc <;>
      simp [List.orderedInsert, List.filter_cons, hx]
  | cons y ys ih =>
    by_cases hr : scoreRel x y
    · by_cases hx : x.2 = sc <;>
        simp [List.orderedInsert, hr, List.filter_cons, hx]
    · have hlt : x.2 < y.2 := lt_of_not_le hr
      by_cases hx : x.2 = sc <;> by_cases hy : y.2 = sc
      · omega
      · simp [List.orderedInsert, hr, List.filter_cons, ih, hx, hy]
      · simp [List.orderedInsert, hr, List.filter_cons, ih, hx, hy]
      · simp [List.orderedInsert, hr, List.filter_cons, ih, hx, hy]

/-- Helper: `insertionSort` under `scoreRel` is stable — filtering the
sorted list at any one score value returns those elements in their
original order. -/
theorem filter_insertionSort (sc : ℤ) (l : List (List Char × ℤ)) :
    (List.insertionSort scoreRel l).filter (fun y => y.2 == sc) =
      l.filter (fun y => y.2 == sc) := by
  induction l with
  | nil => rfl
  | cons x xs ih =>
    simp only [List.insertionSort, filter_orderedInsert, ih, List.filter_cons]

/-- C6: for every bullet list longer than the cap, the result consists
of exactly the first `max_points` elements of the stable descending sort
of the scored bullets: it has exactly `max_points` elements, every kept
bullet scores at least every dropped bullet, and the sort is stable
(bullets of any one score keep their original relative order). -/
theorem C6_optimize_bullet_points_top_k_stable
    (points : List (List Char)) (k : ℕ) (h : k < points.length) :
    optimize_bullet_points points k =
      ((List.insertionSort scoreRel
        (points.map (fun p => (p, bullet_score p)))).take k).map Prod.fst ∧
    (optimize_bullet_points points k).length = k ∧
    (∀ x ∈ (List.insertionSort scoreRel
        (points.map (fun p => (p, bullet_score p)))).take k,
      ∀ y ∈ (List.insertionSort scoreRel
        (points.map (fun p => (p, bullet_score p)))).drop k,
        y.2 ≤ x.2) ∧
    (∀ sc : ℤ,
      (List.insertionSort scoreRel
          (points.map (fun p => (p, bullet_score p)))).filter (fun y => y.2 == sc) =
        (points.map (fun p => (p, bullet_score p))).filter (fun y => y.2 == sc)) := by
  have hdef : optimize_bullet_points points k =
      ((List.insertionSort scoreRel
        (points.map (fun p => (p, bullet_score p)))).take k).map Prod.fst := by
    unfold optimize_bullet_points
    rw [if_neg (not_le.mpr h)]
  refine ⟨hdef, ?_, ?_, fun sc => filter_insertionSort sc _⟩
  · rw [hdef, List.length_map, List.length_take]
    have hlen : (List.insertionSort scoreRel
        (points.map (fun p => (p, bullet_score p)))).length = points.length := by
      rw [(List.perm_insertionSort scoreRel _).length_eq, List.length_map]
    omega
  · intro x hx y hy
    exact List.Sorted.rel_of_mem_take_of_mem_drop
      (List.sorted_insertionSort scoreRel _) hx hy

set_option maxRecDepth 4000 in
/-- Witness for C6 at Scenario C: seven bullets with cap 4 keep exactly
four bullets; the two score-92 bullets and the two score-91 bullets each
appear in their original relative order. -/
theorem C6_witness :
    4 < sevenBullets.length ∧
    (optimize_bullet_points sevenBullets 4).length = 4 ∧
    optimize_bullet_points sevenBullets 4 =
      ["beta two".data, "zeta six".data, "alpha one".data, "eta seven".data] :=
  ⟨by decide,
   (C6_optimize_bullet_points_top_k_stable sevenBullets 4 (by decide)).2.1,
   by decide⟩

/-! ## Claim C9: the parser never fails and opens records only at
`SLIDE` markers -/

/-- Helper: one parsing step grows the total number of records carried
by the state (flushed plus in-progress) by exactly one on a marker line
and leaves it unchanged on every other line. -/
theorem processLine_length (st : Option ParsedSlide × List ParsedSlide)
    (raw : List Char) :
    (processLine st raw).2.length + (processLine st raw).1.toList.length =
      st.2.length + st.1.toList.length +
        (if isMarkerLine raw then 1 else 0) := by
  rcases st with ⟨cur, acc⟩
  cases cur with
  | none =>
    unfold processLine
    split_ifs with h1 <;> simp_all
  | some s =>
    unfold processLine
    split_ifs with h1 h2 h3 h4 h5 h6 <;> simp_all

/-- Helper: folding the parsing loop over a list of lines grows the
total record count by exactly the number of marker lines. -/
theorem foldl_processLine_length (ls : List (List Char))
    (st : Option ParsedSlide × List ParsedSlide) :
    (ls.foldl processLine st).2.length +
        (ls.foldl processLine st).1.toList.length =
      st.2.length + st.1.toList.length +
        ls.countP (fun l => isMarkerLine l) := by
  induction ls generalizing st with
  | nil => simp
  | cons l ls ih =>
    rw [List.foldl_cons, ih, processLine_length, List.countP_cons]
    split_ifs with hm
    · omega
    · simp

/-- C9: parsing is total and never fails — the empty input yields the
empty record sequence, and for every input the number of records in the
output equals the number of `SLIDE` marker lines, so bullet (or any
other) lines with no preceding marker produce no record: every output
record was opened by a `SLIDE` marker. -/
theorem C9_parse_total_records_from_markers :
    parse_analysis_result "" = [] ∧
    ∀ input : String,
      (parse_analysis_result input).length = countSlideMarkers input := by
  constructor
  · decide
  · intro input
    have h := foldl_processLine_length (splitOnNl (pyStrip input.data)) (none, [])
    simp only [parse_analysis_result, countSlideMarkers, List.length_append]
    simp only [List.length_nil, Option.toList_none] at h
    omega

/-! ## Claim C3: the `SLIDE_TYPE:` tag handling -/

set_option maxRecDepth 4000 in
/-- C3 counterexample: a `SLIDE_TYPE: banana_slide` line stores the
unknown tag verbatim in the record — the kind is not coerced to the
Content tag and is not one of the six enumerated tag strings. -/
theorem C3_counterexample_unknown_tag_stored :
    (parse_analysis_result c3_input).map (fun r => r.slide_type) =
      ["banana_slide".data] ∧
    "banana_slide".data ∉ valid_slide_type_tags := by
  exact ⟨by decide, by decide⟩

/-- Helper: a parsing step on a line that does not match the
`SLIDE_TYPE:` test preserves the invariant that every record in the
state has the default `slide_type`. -/
theorem processLine_slide_type_default
    (st : Option ParsedSlide × List ParsedSlide) (raw : List Char)
    (hline : isSlideTypeish raw = false)
    (hacc : ∀ r ∈ st.2, r.slide_type = "content_slide".data)
    (hcur : ∀ r, st.1 = some r → r.slide_type = "content_slide".data) :
    (∀ r ∈ (processLine st raw).2, r.slide_type = "content_slide".data) ∧
    (∀ r, (processLine st raw).1 = some r →
      r.slide_type = "content_slide".data) := by
  rcases st with ⟨cur, acc⟩
  cases cur with
  | none =>
    by_cases h1 : isMarkerLine raw
    · unfold processLine
      rw [if_pos h1]
      refine ⟨?_, ?_⟩
      · intro r hr
        simp only [Option.toList_none, List.append_nil] at hr
        exact hacc r hr
      · intro r hr
        simp only [Option.some.injEq] at hr
        rw [← hr]
        rfl
    · have heq : processLine (none, acc) raw = (none, acc) := by
        unfold processLine
        simp [h1]
      rw [heq]
      exact ⟨hacc, hcur⟩
  | some s =>
    have hs : s.slide_type = "content_slide".data := hcur s rfl
    unfold processLine
    split_ifs with h1 h2 h3 h4 h5 h6
    · refine ⟨?_, ?_⟩
      · intro r hr
        simp only [Option.toList_some] at hr
        rcases List.mem_append.mp hr with h | h
        · exact hacc r h
        · rw [List.mem_singleton.mp h]
          exact hs
      · intro r hr
        simp only [Option.some.injEq] at hr
        rw [← hr]
        rfl
    · refine ⟨hacc, ?_⟩
      intro r hr
      have hr2 : ({ s with title := titlePayload raw } : ParsedSlide) = r := by
        simpa using hr
      rw [← hr2]
      exact hs
    · refine ⟨hacc, ?_⟩
      intro r hr
      have hr2 : ({ s with theme := themePayload raw } : ParsedSlide) = r := by
        simpa using hr
      rw [← hr2]
      exact hs
    · exfalso
      rw [hline] at h4
      simp at h4
    · refine ⟨hacc, ?_⟩
      intro r hr
      have hr2 : ({ s with points := s.points ++ [bulletPayload raw] } :
          ParsedSlide) = r := by
        simpa using hr
      rw [← hr2]
      exact hs
    · exact ⟨hacc, hcur⟩
    · exact ⟨hacc, hcur⟩

/-- Helper: the invariant of `processLine_slide_type_default` is
preserved by the whole parsing fold when no line matches the
`SLIDE_TYPE:` test. -/
theorem foldl_processLine_slide_type_default (ls : List (List Char))
    (st : Option ParsedSlide × List ParsedSlide)
    (hls : ∀ l ∈ ls, isSlideTypeish l = false)
    (hacc : ∀ r ∈ st.2, r.slide_type = "content_slide".data)
    (hcur : ∀ r, st.1 = some r → r.slide_type = "content_slide".data) :
    (∀ r ∈ (ls.foldl processLine st).2,
      r.slide_type = "content_slide".data) ∧
    (∀ r, (ls.foldl processLine st).1 = some r →
      r.slide_type = "content_slide".data) := by
  induction ls generalizing st with
  | nil => exact ⟨hacc, hcur⟩
  | cons l ls ih =>
    rw [List.foldl_cons]
    obtain ⟨ha, hc⟩ :=
      processLine_slide_type_default st l (hls l (by simp)) hacc hcur
    exact ih _ (fun l' hl' => hls l' (by simp [hl'])) ha hc

/-- C3 (amended): a `SLIDE_TYPE:` line stores the raw trimmed tag string
verbatim in the record, with no lookup against any enum and no error —
the concrete input with tag `banana_slide` yields exactly that string —
and when no line of the input matches the `SLIDE_TYPE:` test, every
parsed record keeps the default tag `"content_slide"`. -/
theorem C3_amended_slide_type_verbatim_or_default :
    (∀ input : String,
      ((splitOnNl (pyStrip input.data)).all (fun l => !isSlideTypeish l)) = true →
      ∀ r ∈ parse_analysis_result input,
        r.slide_type = "content_slide".data) ∧
    (parse_analysis_result c3_input).map (fun r => r.slide_type) =
      ["banana_slide".data] := by
  constructor
  · intro input hall r hr
    have hls : ∀ l ∈ splitOnNl (pyStrip input.data),
        isSlideTypeish l = false := by
      intro l hl
      have := List.all_eq_true.mp hall l hl
      simpa using this
    obtain ⟨ha, hc⟩ :=
      foldl_processLine_slide_type_default (splitOnNl (pyStrip input.data))
        (none, []) hls (by intro r hr; cases hr)
        (fun r hr => Option.noConfusion hr)
    simp only [parse_analysis_result] at hr
    rcases List.mem_append.mp hr with h | h
    · exact ha r h
    · refine hc r ?_
      cases hcase : (List.foldl processLine (none, [])
          (splitOnNl (pyStrip input.data))).1 with
      | none =>
        rw [hcase] at h
        cases h
      | some s =>
        rw [hcase] at h
        simp only [Option.toList_some, List.mem_singleton] at h
        rw [h]
  · set_option maxRecDepth 4000 in decide

set_option maxRecDepth 4000 in
/-- Witness for C3 (amended) at an input with no `SLIDE_TYPE:` line: the
parsed record keeps the default `"content_slide"`. -/
theorem C3_amended_witness :
    ((splitOnNl (pyStrip c3_plain_input.data)).all
      (fun l => !isSlideTypeish l)) = true ∧
    ((parse_analysis_result c3_plain_input).getD 0 initSlide).slide_type =
      "content_slide".data :=
  ⟨by decide,
   C3_amended_slide_type_verbatim_or_default.1 c3_plain_input (by decide)
     ((parse_analysis_result c3_plain_input).getD 0 initSlide) (by decide)⟩

end AiPpt
